import Mathlib

/-!
Verification of the security-scanning core of the Sirojhub/BOT_STANDART
Telegram bot (src/handlers/security.py, src/utils/formatter.py, src/database.py).

The Python code is shallowly embedded: every network interaction and every
side effect of the scanning pipeline is replaced by an explicit environment
(`FileScanEnv`, `UrlScanEnv`) whose fields give the responses the outside
world would produce, and each embedded function returns, next to its Python
return value, the list of observable events (`Ev`) it would have performed,
in order.  Python dicts such as `{"stats": ..., "link": ...}` are embedded
as the record `PyResult` whose optional fields mirror the keys actually read
by the callers.  Wall-clock time is the sum of the `asyncio.sleep` durations
appearing in a trace.
-/

set_option maxRecDepth 4096

/-- The four `last_analysis_stats` counters read by the code.  Each field is
`Option Int` because the Python side reads them with `stats.get(key, 0)`:
a missing key is legal and defaults to zero. -/
structure Stats where
  harmless : Option Int
  malicious : Option Int
  suspicious : Option Int
  undetected : Option Int
deriving DecidableEq, Repr

/-- Embedding of the Python result dicts produced by the scanning functions:
`error`, `stats`, `link`, `cached`, `analysis_id`, `file_hash` are the keys
the callers inspect. -/
structure PyResult where
  error : Option String
  stats : Option Stats
  link : Option String
  cached : Bool
  analysisId : Option String
  fileHash : Option String
deriving DecidableEq, Repr

/-- Kind of terminal message `background_scan_and_notify` edits into the chat. -/
inductive NotifyKind where
  | errMsg
  | report
  | timeoutMsg
deriving DecidableEq, Repr

/-- Observable events of the scanning pipeline, in program order. -/
inductive Ev where
  | download
  | hashFile
  | cacheGet (digest : String)
  | cacheSave (digest : String) (st : Stats) (link : String)
  | vtHashGet (digest : String)
  | vtUpload
  | vtSubmitUrl (url : String)
  | vtPoll (analysisId : String)
  | sleep (secs : Nat)
  | notify (kind : NotifyKind)
deriving DecidableEq, Repr

/-- Response of one `GET /api/v3/analyses/{id}` poll request, as the
environment chooses it: a transport-level exception, a non-200 HTTP status,
or a 200 body carrying `attributes.status` and `attributes.stats`. -/
inductive PollResp where
  | err
  | httpStatus (s : Nat)
  | ok (status : String) (stats : Stats)
deriving DecidableEq, Repr

def isCompletedResp : PollResp → Bool
  | PollResp.ok st _ => st = "completed"
  | _ => false

def isPendingResp : PollResp → Bool
  | PollResp.ok st _ => st = "queued" || st = "in-progress"
  | _ => false

-- ── Trace statistics ─────────────────────────────────────────────────────

def countEv (p : Ev → Bool) (evs : List Ev) : Nat := (evs.filter p).length

def isPollEv : Ev → Bool
  | Ev.vtPoll _ => true
  | _ => false

def isUploadEv : Ev → Bool
  | Ev.vtUpload => true
  | _ => false

def isSaveEv : Ev → Bool
  | Ev.cacheSave _ _ _ => true
  | _ => false

def isNotifyEv : Ev → Bool
  | Ev.notify _ => true
  | _ => false

def isRemoteEv : Ev → Bool
  | Ev.vtHashGet _ => true
  | Ev.vtUpload => true
  | Ev.vtSubmitUrl _ => true
  | Ev.vtPoll _ => true
  | _ => false

def isHashEv : Ev → Bool
  | Ev.hashFile => true
  | _ => false

def evTime : Ev → Nat
  | Ev.sleep s => s
  | _ => 0

/-- Wall-clock time of a trace: the sum of its `asyncio.sleep` durations. -/
def traceTime (evs : List Ev) : Nat := (evs.map evTime).sum

-- ── Constants (src/handlers/security.py lines 19-21) ─────────────────────

def VT_SCAN_TIMEOUT : Nat := 25

def MAX_FILE_SIZE : Nat := 32 * 1024 * 1024

-- ── String helpers (Python `in` and `startswith`) ────────────────────────

def listHasPre : List Char → List Char → Bool
  | [], _ => true
  | _ :: _, [] => false
  | p :: ps, s :: ss => p == s && listHasPre ps ss

/-- Python `s.startswith(p)`. -/
def strHasPre (p s : String) : Bool := listHasPre p.toList s.toList

def listOccurs (p : List Char) : List Char → Bool
  | [] => listHasPre p []
  | s :: ss => listHasPre p (s :: ss) || listOccurs p ss

/-- Python `p in s` on strings. -/
def strOccurs (p s : String) : Bool := listOccurs p.toList s.toList

/-- Embedding of the credential guard
`if not VT_API_KEY or "YOUR_" in VT_API_KEY` (security.py lines 92, 133):
the key is valid when it is set, non-empty and has no `YOUR_` placeholder. -/
def apiKeyValid : Option String → Bool
  | none => false
  | some k => !(k == "") && !(strOccurs "YOUR_" k)

-- ── Result-dict constructors ─────────────────────────────────────────────

def okResult (st : Stats) (link : String) : PyResult :=
  { error := none, stats := some st, link := some link, cached := false,
    analysisId := none, fileHash := none }

def errResult (msg : String) : PyResult :=
  { error := some msg, stats := none, link := none, cached := false,
    analysisId := none, fileHash := none }

def timeoutResult (aid fh : String) : PyResult :=
  { error := some "timeout", stats := none, link := none, cached := false,
    analysisId := some aid, fileHash := some fh }

def cachedResult (st : Stats) (link : String) : PyResult :=
  { error := none, stats := some st, link := some link, cached := true,
    analysisId := none, fileHash := none }

-- ── Result Cache (spec-modelled) ─────────────────────────────────────────

/-- Modelled from the spec: `get_cached_scan` is imported by
`handlers/security.py` from `database`, but `src/database.py` does not define
it.  Per spec section 4.2, `get(digest)` is a purely local lookup returning the
stored verdict or absent; per the callers (`result.get("cached")` in
`background_scan_and_notify`) a hit carries the `cached` tag. -/
def get_cached_scan (cache : String → Option (Stats × String)) (digest : String) :
    Option PyResult :=
  (cache digest).map (fun sl => cachedResult sl.1 sl.2)

/-- Modelled from the spec: `save_scan_cache` is imported by
`handlers/security.py` from `database`, but `src/database.py` does not define
it.  Per spec section 4.2, `put(digest, verdict)` is idempotent,
overwrite-last, and never raises; like every other write helper in
`src/database.py` it swallows internal I/O failures, so the underlying write
success is a best-effort flag that the caller never sees. -/
def save_scan_cache (cache : String → Option (Stats × String)) (digest : String)
    (st : Stats) (link : String) (writeOk : Bool) :
    String → Option (Stats × String) :=
  if writeOk then fun d => if d = digest then some (st, link) else cache d
  else cache

-- ── Report formatter (src/utils/formatter.py) ────────────────────────────

def malHeader : String := "🚨 XAVFLI (Malicious)"

def susHeader : String := "⚠️ SHUBHALI (Suspicious)"

def safeHeader : String := "✅ XAVFSIZ (Safe)"

/-- The status classification of `format_scan_report` (formatter.py lines
12-18): `int(stats.get('malicious', 0))` and `int(stats.get('suspicious', 0))`
with missing keys defaulting to zero, malicious first. -/
def statusHeader (stats : Stats) : String :=
  let malicious := stats.malicious.getD 0
  let suspicious := stats.suspicious.getD 0
  if malicious > 0 then malHeader
  else if suspicious > 0 then susHeader
  else safeHeader

/-- Embedding of `format_scan_report` (formatter.py lines 3-32). -/
def format_scan_report (stats : Stats) (link : String) (ad_text : String) : String :=
  let harmless := stats.harmless.getD 0
  let malicious := stats.malicious.getD 0
  let suspicious := stats.suspicious.getD 0
  let undetected := stats.undetected.getD 0
  "🔒 **Xavfsizlik tekshiruvi natijasi**\n\n" ++
  "📎 **Fayl/Havola**: [Havola](" ++ link ++ ")\n" ++
  "📊 **Natija**: " ++ statusHeader stats ++ "\n\n" ++
  "🟢 Xavfsiz: " ++ toString harmless ++ "\n" ++
  "🔴 Zararli: " ++ toString malicious ++ "\n" ++
  "🟠 Shubheli: " ++ toString suspicious ++ "\n" ++
  "⚪️ Aniqlanmagan: " ++ toString undetected ++ "\n\n" ++
  "🔗 [Batafsil hisobot](" ++ link ++ ")\n\n" ++
  "⚖️ *Mas\x27uliyatni rad etish: Ushbu bot VirusTotal ma\x27lumotlariga asoslanadi. " ++
  "Natijalar 100% kafolat bermaydi. Har doim ehtiyot bo\x27ling.*\n\n" ++
  ad_text

-- ── Poll loop (src/handlers/security.py lines 41-68) ─────────────────────

/-- One pass of the `for attempt in range(max_attempts)` loop of
`get_analysis_result`; `i` is the index of the next attempt, the second
argument the number of attempts left.  Every attempt issues one status
request; a transport error, a non-200 status, and a 200 body whose
`attributes.status` is not `completed` all sleep `interval` seconds and
continue; a `completed` body returns the attributes at once. -/
def pollGo (poll : Nat → PollResp) (analysisId : String) (interval : Nat) :
    Nat → Nat → Option Stats × List Ev
  | _, 0 => (none, [])
  | i, n + 1 =>
    match poll i with
    | PollResp.err =>
      let r := pollGo poll analysisId interval (i + 1) n
      (r.1, Ev.vtPoll analysisId :: Ev.sleep interval :: r.2)
    | PollResp.httpStatus _ =>
      let r := pollGo poll analysisId interval (i + 1) n
      (r.1, Ev.vtPoll analysisId :: Ev.sleep interval :: r.2)
    | PollResp.ok st attrs =>
      if st = "completed" then (some attrs, [Ev.vtPoll analysisId])
      else
        let r := pollGo poll analysisId interval (i + 1) n
        (r.1, Ev.vtPoll analysisId :: Ev.sleep interval :: r.2)

/-- Embedding of `get_analysis_result(session, analysis_id, max_attempts,
interval)`: polls VirusTotal up to `maxAttempts` times, returns the analysis
attributes on `completed` and `None` when the ceiling is exhausted. -/
def get_analysis_result (poll : Nat → PollResp) (analysisId : String)
    (maxAttempts interval : Nat) : Option Stats × List Ev :=
  pollGo poll analysisId interval 0 maxAttempts

-- ── VirusTotal links ─────────────────────────────────────────────────────

def fileLink (digest : String) : String :=
  "https://www.virustotal.com/gui/file/" ++ digest ++ "/detection"

/-- Link construction of `scan_url_virustotal` (lines 113-117):
`analysis_id.split('-')[1]` with the `IndexError` fallback to a search link. -/
def urlLink (analysisId url : String) : String :=
  match analysisId.splitOn "-" with
  | _ :: p1 :: _ => "https://www.virustotal.com/gui/url/" ++ p1 ++ "/detection"
  | _ => "https://www.virustotal.com/gui/search/" ++ url

-- ── Scan environments ────────────────────────────────────────────────────

/-- Environment of one `scan_file_virustotal` run: the local cache contents,
the remote responses, and the best-effort success of the local cache write. -/
structure FileScanEnv where
  apiKey : Option String
  cache : String → Option (Stats × String)
  hashLookup : Option Stats
  uploadStatus : Nat
  uploadId : String
  poll : Nat → PollResp
  conflictStatus : Nat
  conflictStats : Stats
  cacheWriteOk : Bool

/-- Environment of one `scan_url_virustotal` run. -/
structure UrlScanEnv where
  apiKey : Option String
  submitStatus : Nat
  analysisId : String
  poll : Nat → PollResp

-- ── check_file_hash_vt (lines 71-87) ─────────────────────────────────────

/-- Embedding of `check_file_hash_vt`: one `GET /api/v3/files/{hash}`; a 200
response yields the stats and the detection link, any other status or a
transport error yields `None`. -/
def check_file_hash_vt (env : FileScanEnv) (fileHash : String) :
    Option (Stats × String) × List Ev :=
  match env.hashLookup with
  | some st => (some (st, fileLink fileHash), [Ev.vtHashGet fileHash])
  | none => (none, [Ev.vtHashGet fileHash])

-- ── scan_file_virustotal (lines 128-199) ─────────────────────────────────

/-- Embedding of `scan_file_virustotal(file_path, file_hash)` with the hash
already computed (every call site in src passes it).  Order of checks,
exactly as in the source: credential guard, local DB cache, VT hash lookup
(write-through on hit), upload with 409-conflict resolution, then the
15-attempt 3-second poll loop with write-through on completion.  The value
returned by `save_scan_cache` is discarded, as in the source. -/
def scan_file_virustotal (env : FileScanEnv) (fileHash : String) :
    PyResult × List Ev :=
  if apiKeyValid env.apiKey = false then
    (errResult "VirusTotal API Key o\x27rnatilmagan.", [])
  else
    match get_cached_scan env.cache fileHash with
    | some r => (r, [Ev.cacheGet fileHash])
    | none =>
      match env.hashLookup with
      | some st =>
        (okResult st (fileLink fileHash),
         [Ev.cacheGet fileHash, Ev.vtHashGet fileHash,
          Ev.cacheSave fileHash st (fileLink fileHash)])
      | none =>
        if env.uploadStatus = 409 then
          if env.conflictStatus = 200 then
            (okResult env.conflictStats (fileLink fileHash),
             [Ev.cacheGet fileHash, Ev.vtHashGet fileHash, Ev.vtUpload,
              Ev.vtHashGet fileHash,
              Ev.cacheSave fileHash env.conflictStats (fileLink fileHash)])
          else
            (errResult "Fayl VT bazasida bor, lekin natijani olishda xatolik.",
             [Ev.cacheGet fileHash, Ev.vtHashGet fileHash, Ev.vtUpload,
              Ev.vtHashGet fileHash])
        else if env.uploadStatus ≠ 200 then
          (errResult ("Fayl yuklashda xatolik: " ++ toString env.uploadStatus),
           [Ev.cacheGet fileHash, Ev.vtHashGet fileHash, Ev.vtUpload])
        else
          let pr := get_analysis_result env.poll env.uploadId 15 3
          match pr.1 with
          | some stats =>
            (okResult stats (fileLink fileHash),
             [Ev.cacheGet fileHash, Ev.vtHashGet fileHash, Ev.vtUpload] ++ pr.2 ++
             [Ev.cacheSave fileHash stats (fileLink fileHash)])
          | none =>
            (timeoutResult env.uploadId fileHash,
             [Ev.cacheGet fileHash, Ev.vtHashGet fileHash, Ev.vtUpload] ++ pr.2)

-- ── scan_url_virustotal (lines 90-125) ───────────────────────────────────

/-- Embedding of `scan_url_virustotal(url)`: credential guard, URL submission,
then the 10-attempt 2-second poll loop.  A poll exhaustion yields the Uzbek
timeout message, never the `"timeout"` marker dict (that marker exists only in
the file path). -/
def scan_url_virustotal (env : UrlScanEnv) (url : String) : PyResult × List Ev :=
  if apiKeyValid env.apiKey = false then
    (errResult "VirusTotal API Key o\x27rnatilmagan.", [])
  else if env.submitStatus ≠ 200 then
    (errResult ("URL yuborishda xatolik: " ++ toString env.submitStatus),
     [Ev.vtSubmitUrl url])
  else
    let pr := get_analysis_result env.poll env.analysisId 10 2
    match pr.1 with
    | some stats =>
      (okResult stats (urlLink env.analysisId url), Ev.vtSubmitUrl url :: pr.2)
    | none =>
      (errResult "Tahlil vaqti tugadi. Keyinroq urinib ko\x27ring.",
       Ev.vtSubmitUrl url :: pr.2)

-- ── Background notification (lines 204-241) ──────────────────────────────

/-- The branch structure of `background_scan_and_notify`: an error other than
the `"timeout"` marker is shown as an error message, a result with stats as a
formatted report, anything else as the analysis-did-not-finish message. -/
def terminalNotify (r : PyResult) : NotifyKind :=
  match r.error with
  | some e =>
    if e = "timeout" then
      (if r.stats.isSome then NotifyKind.report else NotifyKind.timeoutMsg)
    else NotifyKind.errMsg
  | none => if r.stats.isSome then NotifyKind.report else NotifyKind.timeoutMsg

/-- Embedding of `background_scan_and_notify`: re-runs the scan (the given
`run` is the re-run's result and trace) and then edits the status message
exactly once with the terminal text. -/
def background_scan_and_notify (run : PyResult × List Ev) : List Ev :=
  run.2 ++ [Ev.notify (terminalNotify run.1)]

-- ── scan_with_timeout (lines 244-281) ────────────────────────────────────

/-- What `scan_with_timeout` hands back to the calling handler. -/
structure FgOutcome where
  result : Option PyResult
  time : Nat
  spawned : Bool
deriving DecidableEq, Repr

/-- Embedding of `scan_with_timeout`: `asyncio.wait_for(scan_func(*args),
timeout=budget)` returns the scan result when the scan's wall-clock time fits
the budget, else raises `TimeoutError` at time `budget`; a result carrying the
`"timeout"` marker and a `TimeoutError` both edit the status message to the
deferred notice and detach `background_scan_and_notify`, returning `None`. -/
def scan_with_timeout (budget : Nat) (run : PyResult × List Ev) : FgOutcome :=
  if traceTime run.2 ≤ budget then
    if run.1.error = some "timeout" then
      { result := none, time := traceTime run.2, spawned := true }
    else
      { result := some run.1, time := traceTime run.2, spawned := false }
  else { result := none, time := budget, spawned := true }

-- ── Message handlers (lines 345-428) ─────────────────────────────────────

/-- Observable outcome of a message handler. -/
inductive HandlerStep where
  | rejected (msg : String)
  | cachedReply (r : PyResult)
  | scanned (fg : FgOutcome)
deriving DecidableEq, Repr

/-- Embedding of `process_file_check`: the size guard runs before the
download, the hash computation, the cache check and the scan. -/
def process_file_check (env : FileScanEnv) (fileSize : Nat) (fileHash : String) :
    HandlerStep × List Ev :=
  if fileSize > MAX_FILE_SIZE then
    (HandlerStep.rejected "⚠️ Fayl juda katta. Maksimum 32MB.", [])
  else
    match get_cached_scan env.cache fileHash with
    | some r =>
      (HandlerStep.cachedReply r, [Ev.download, Ev.hashFile, Ev.cacheGet fileHash])
    | none =>
      let run := scan_file_virustotal env fileHash
      (HandlerStep.scanned (scan_with_timeout VT_SCAN_TIMEOUT run),
       [Ev.download, Ev.hashFile, Ev.cacheGet fileHash] ++ run.2)

/-- Embedding of `process_link_check`: the `url.startswith("http")` guard runs
before any network call. -/
def process_link_check (env : UrlScanEnv) (url : String) : HandlerStep × List Ev :=
  if strHasPre "http" url = false then
    (HandlerStep.rejected "⚠️ Noto\x27g\x27ri URL. http:// yoki https:// bilan boshlang.", [])
  else
    let run := scan_url_virustotal env url
    (HandlerStep.scanned (scan_with_timeout VT_SCAN_TIMEOUT run), run.2)

-- ── Content hasher (src/handlers/security.py lines 30-36) ────────────────

/-- Split a byte list into consecutive chunks of at most `n` bytes, the model
of `iter(lambda: f.read(8192), b'')`. -/
def chunksOf (n : Nat) : List α → List (List α)
  | [] => []
  | x :: xs => (x :: xs.take (n - 1)) :: chunksOf n (xs.drop (n - 1))
termination_by l => l.length
decreasing_by simp; omega

-- SHA-256 over `Nat`, word arithmetic taken modulo 2^32.

def w32 (n : Nat) : Nat := n % 4294967296

def rotr (n x : Nat) : Nat := w32 ((w32 x >>> n) ||| (w32 x <<< (32 - n)))

def chF (e f g : Nat) : Nat := (e &&& f) ^^^ ((e ^^^ 4294967295) &&& g)

def majF (a b c : Nat) : Nat := (a &&& b) ^^^ (a &&& c) ^^^ (b &&& c)

def sigB0 (a : Nat) : Nat := rotr 2 a ^^^ rotr 13 a ^^^ rotr 22 a

def sigB1 (e : Nat) : Nat := rotr 6 e ^^^ rotr 11 e ^^^ rotr 25 e

def sigS0 (x : Nat) : Nat := rotr 7 x ^^^ rotr 18 x ^^^ (x >>> 3)

def sigS1 (x : Nat) : Nat := rotr 17 x ^^^ rotr 19 x ^^^ (x >>> 10)

def K256 : List Nat :=
  [1116352408, 1899447441, 3049323471, 3921009573, 961987163,
   1508970993, 2453635748, 2870763221, 3624381080, 310598401,
   607225278, 1426881987, 1925078388, 2162078206, 2614888103,
   3248222580, 3835390401, 4022224774, 264347078, 604807628,
   770255983, 1249150122, 1555081692, 1996064986, 2554220882,
   2821834349, 2952996808, 3210313671, 3336571891, 3584528711,
   113926993, 338241895, 666307205, 773529912, 1294757372,
   1396182291, 1695183700, 1986661051, 2177026350, 2456956037,
   2730485921, 2820302411, 3259730800, 3345764771, 3516065817,
   3600352804, 4094571909, 275423344, 430227734, 506948616,
   659060556, 883997877, 958139571, 1322822218, 1537002063,
   1747873779, 1955562222, 2024104815, 2227730452, 2361852424,
   2428436474, 2756734187, 3204031479, 3329325298]

structure H8 where
  a : Nat
  b : Nat
  c : Nat
  d : Nat
  e : Nat
  f : Nat
  g : Nat
  h : Nat
deriving DecidableEq, Repr

def initH : H8 :=
  ⟨1779033703, 3144134277, 1013904242, 2773480762,
   1359893119, 2600822924, 528734635, 1541459225⟩

/-- Extend the 16-word message schedule by `k` further words. -/
def extendW : List Nat → Nat → List Nat
  | ws, 0 => ws
  | ws, k + 1 =>
    let n := ws.length
    let next := w32 (sigS1 (ws.getD (n - 2) 0) + ws.getD (n - 7) 0 +
                     sigS0 (ws.getD (n - 15) 0) + ws.getD (n - 16) 0)
    extendW (ws ++ [next]) k

def shaRound (st : H8) (kw : Nat × Nat) : H8 :=
  let t1 := w32 (st.h + sigB1 st.e + chF st.e st.f st.g + kw.1 + kw.2)
  let t2 := w32 (sigB0 st.a + majF st.a st.b st.c)
  ⟨w32 (t1 + t2), st.a, st.b, st.c, w32 (st.d + t1), st.e, st.f, st.g⟩

def compress (st : H8) (block : List Nat) : H8 :=
  let ws := extendW block 48
  let f := (K256.zip ws).foldl shaRound st
  ⟨w32 (st.a + f.a), w32 (st.b + f.b), w32 (st.c + f.c), w32 (st.d + f.d),
   w32 (st.e + f.e), w32 (st.f + f.f), w32 (st.g + f.g), w32 (st.h + f.h)⟩

def lenBytes8 (L : Nat) : List Nat :=
  [(L >>> 56) % 256, (L >>> 48) % 256, (L >>> 40) % 256, (L >>> 32) % 256,
   (L >>> 24) % 256, (L >>> 16) % 256, (L >>> 8) % 256, L % 256]

/-- SHA-256 padding: a 0x80 byte, zeros to 56 mod 64, the bit length big
endian in 8 bytes. -/
def padMsg (bs : List Nat) : List Nat :=
  let z := (120 - (bs.length + 1) % 64) % 64
  bs ++ [128] ++ List.replicate z 0 ++ lenBytes8 (8 * bs.length)

def bytesToWords : List Nat → List Nat
  | b0 :: b1 :: b2 :: b3 :: rest =>
    (((b0 % 256) <<< 24) + ((b1 % 256) <<< 16) + ((b2 % 256) <<< 8) + b3 % 256) ::
      bytesToWords rest
  | _ => []

def sha256H (bs : List Nat) : H8 :=
  ((chunksOf 64 (padMsg bs)).map bytesToWords).foldl compress initH

def wordBytes (w : Nat) : List Nat :=
  [(w >>> 24) % 256, (w >>> 16) % 256, (w >>> 8) % 256, w % 256]

def sha256bytes (bs : List Nat) : List Nat :=
  let hs := sha256H bs
  wordBytes hs.a ++ wordBytes hs.b ++ wordBytes hs.c ++ wordBytes hs.d ++
  wordBytes hs.e ++ wordBytes hs.f ++ wordBytes hs.g ++ wordBytes hs.h

def hexChars : List Char := "0123456789abcdef".toList

def hexDigit (n : Nat) : Char :=
  match n % 16 with
  | 0 => '0' | 1 => '1' | 2 => '2' | 3 => '3' | 4 => '4' | 5 => '5'
  | 6 => '6' | 7 => '7' | 8 => '8' | 9 => '9' | 10 => 'a' | 11 => 'b'
  | 12 => 'c' | 13 => 'd' | 14 => 'e' | _ => 'f'

def hexOfBytes (bs : List Nat) : List Char :=
  (bs.map (fun b => [hexDigit (b / 16), hexDigit b])).flatten

/-- Model of `hashlib.sha256(bytes).hexdigest()` on a byte sequence. -/
def sha256hex (bs : List Nat) : String := String.mk (hexOfBytes (sha256bytes bs))

/-- The running `hashlib.sha256()` object, modelled by the byte sequence it
has absorbed; `update` appends a chunk to it. -/
def sha256_update (state chunk : List Nat) : List Nat := state ++ chunk

def sha256_hexdigest (state : List Nat) : String := sha256hex state

/-- Embedding of `compute_file_hash` (security.py lines 30-36): feed the file
to the hash object in chunks of 8192 bytes and return the hex digest. -/
def compute_file_hash (content : List Nat) : String :=
  sha256_hexdigest (List.foldl sha256_update [] (chunksOf 8192 content))


-- ── Concrete instances used by the examples below ────────────────────────

/-- The verdict counts of the spec's concrete scenario (section 8). -/
def wStats : Stats :=
  { harmless := some 70, malicious := some 0, suspicious := some 0,
    undetected := some 5 }

/-- A remote client whose poll always reports a pending analysis. -/
def pendPoll : Nat → PollResp := fun _ => PollResp.ok "queued" wStats

/-- A remote client whose first poll hits a transport error, whose second
gets HTTP 500 and whose third reports completion. -/
def donePoll : Nat → PollResp := fun i =>
  if i = 0 then PollResp.err
  else if i = 1 then PollResp.httpStatus 500
  else PollResp.ok "completed" wStats

/-- A file-scan environment with valid credentials, empty local cache, a
remote service that does not know the hash, and an accepted upload. -/
def wFileEnvBase : FileScanEnv :=
  { apiKey := some "k1", cache := fun _ => none, hashLookup := none,
    uploadStatus := 200, uploadId := "an1", poll := donePoll,
    conflictStatus := 200, conflictStats := wStats, cacheWriteOk := true }

/-- A URL-scan environment whose poll never completes. -/
def wUrlEnv : UrlScanEnv :=
  { apiKey := some "k1", submitStatus := 200, analysisId := "u-abc123",
    poll := pendPoll }

-- ── Trace helper lemmas ──────────────────────────────────────────────────

theorem countEv_cons (p : Ev → Bool) (e : Ev) (l : List Ev) :
    countEv p (e :: l) = (if p e = true then 1 else 0) + countEv p l := by
  by_cases hp : p e = true <;> simp [countEv, List.filter_cons, hp] <;> omega

theorem countEv_append (p : Ev → Bool) (l1 l2 : List Ev) :
    countEv p (l1 ++ l2) = countEv p l1 + countEv p l2 := by
  simp [countEv]

theorem traceTime_cons (e : Ev) (l : List Ev) :
    traceTime (e :: l) = evTime e + traceTime l := by
  simp [traceTime]

theorem traceTime_append (l1 l2 : List Ev) :
    traceTime (l1 ++ l2) = traceTime l1 + traceTime l2 := by
  simp [traceTime]

theorem countEv_poll_sleep (id : String) (iv : Nat) (L : List Ev) :
    countEv isPollEv (Ev.vtPoll id :: Ev.sleep iv :: L) = 1 + countEv isPollEv L := by
  simp [countEv_cons, isPollEv]

theorem traceTime_poll_sleep (id : String) (iv : Nat) (L : List Ev) :
    traceTime (Ev.vtPoll id :: Ev.sleep iv :: L) = iv + traceTime L := by
  simp [traceTime_cons, evTime]

-- ── Poll-loop lemmas ─────────────────────────────────────────────────────

/-- A non-`completed` attempt issues its request, sleeps `interval`, and the
loop continues with the next attempt. -/
theorem pollGo_continue (poll : Nat → PollResp) (id : String) (iv i n : Nat)
    (h : isCompletedResp (poll i) = false) :
    pollGo poll id iv i (n + 1) =
      ((pollGo poll id iv (i + 1) n).1,
       Ev.vtPoll id :: Ev.sleep iv :: (pollGo poll id iv (i + 1) n).2) := by
  cases hp : poll i with
  | err => simp [pollGo, hp]
  | httpStatus s => simp [pollGo, hp]
  | ok st attrs =>
    have hst : ¬ st = "completed" := by
      rw [hp] at h; simpa [isCompletedResp] using h
    simp [pollGo, hp, hst]

theorem pollGo_poll_le (poll : Nat → PollResp) (id : String) (iv : Nat) :
    ∀ n i, countEv isPollEv (pollGo poll id iv i n).2 ≤ n := by
  intro n
  induction n with
  | zero => intro i; simp [pollGo, countEv]
  | succ n ih =>
    intro i
    by_cases hc : isCompletedResp (poll i) = true
    · cases hp : poll i with
      | err => simp [isCompletedResp, hp] at hc
      | httpStatus s => simp [isCompletedResp, hp] at hc
      | ok st attrs =>
        have hst : st = "completed" := by
          rw [hp] at hc; simpa [isCompletedResp] using hc
        simp [pollGo, hp, hst, countEv, List.filter, isPollEv]
    · rw [pollGo_continue poll id iv i n (by simpa using hc)]
      have := ih (i + 1)
      rw [countEv_poll_sleep]
      omega

theorem pollGo_exhaust (poll : Nat → PollResp) (id : String) (iv : Nat) :
    ∀ n i, (∀ j, j < n → isCompletedResp (poll (i + j)) = false) →
    (pollGo poll id iv i n).1 = none ∧
    countEv isPollEv (pollGo poll id iv i n).2 = n ∧
    traceTime (pollGo poll id iv i n).2 = n * iv := by
  intro n
  induction n with
  | zero => intro i _; simp [pollGo, countEv, traceTime]
  | succ n ih =>
    intro i h
    have h0 : isCompletedResp (poll i) = false := by
      have := h 0 (Nat.succ_pos n); simpa using this
    have hrec : ∀ j, j < n → isCompletedResp (poll (i + 1 + j)) = false := by
      intro j hj
      have := h (j + 1) (by omega)
      have harg : i + (j + 1) = i + 1 + j := by omega
      rwa [harg] at this
    obtain ⟨ih1, ih2, ih3⟩ := ih (i + 1) hrec
    rw [pollGo_continue poll id iv i n h0]
    refine ⟨ih1, ?_, ?_⟩
    · rw [countEv_poll_sleep, ih2]
      omega
    · rw [traceTime_poll_sleep, ih3]
      ring

theorem pollGo_complete (poll : Nat → PollResp) (id : String) (iv : Nat) :
    ∀ k i n attrs, k < n →
    (∀ j, j < k → isCompletedResp (poll (i + j)) = false) →
    poll (i + k) = PollResp.ok "completed" attrs →
    (pollGo poll id iv i n).1 = some attrs ∧
    countEv isPollEv (pollGo poll id iv i n).2 = k + 1 ∧
    traceTime (pollGo poll id iv i n).2 = k * iv := by
  intro k
  induction k with
  | zero =>
    intro i n attrs hk _ hc
    obtain ⟨m, rfl⟩ : ∃ m, n = m + 1 := ⟨n - 1, by omega⟩
    have hp : poll i = PollResp.ok "completed" attrs := by simpa using hc
    refine ⟨by simp [pollGo, hp], ?_, ?_⟩
    · simp [pollGo, hp, countEv, List.filter, isPollEv]
    · simp [pollGo, hp, traceTime, evTime]
  | succ k ih =>
    intro i n attrs hk hnc hc
    obtain ⟨m, rfl⟩ : ∃ m, n = m + 1 := ⟨n - 1, by omega⟩
    have h0 : isCompletedResp (poll i) = false := by
      have := hnc 0 (Nat.succ_pos k); simpa using this
    have hrec : ∀ j, j < k → isCompletedResp (poll (i + 1 + j)) = false := by
      intro j hj
      have := hnc (j + 1) (by omega)
      have harg : i + (j + 1) = i + 1 + j := by omega
      rwa [harg] at this
    have hc' : poll (i + 1 + k) = PollResp.ok "completed" attrs := by
      have harg : i + (k + 1) = i + 1 + k := by omega
      rwa [harg] at hc
    obtain ⟨ih1, ih2, ih3⟩ := ih (i + 1) m attrs (by omega) hrec hc'
    rw [pollGo_continue poll id iv i m h0]
    refine ⟨ih1, ?_, ?_⟩
    · rw [countEv_poll_sleep, ih2]
      omega
    · rw [traceTime_poll_sleep, ih3]
      ring

/-- Every event of a poll trace is a status request or a sleep. -/
theorem pollGo_events (poll : Nat → PollResp) (id : String) (iv : Nat) :
    ∀ n i, ∀ e ∈ (pollGo poll id iv i n).2,
    isPollEv e = true ∨ ∃ s, e = Ev.sleep s := by
  intro n
  induction n with
  | zero => intro i e he; simp [pollGo] at he
  | succ n ih =>
    intro i e he
    by_cases hc : isCompletedResp (poll i) = true
    · cases hp : poll i with
      | err => simp [isCompletedResp, hp] at hc
      | httpStatus s => simp [isCompletedResp, hp] at hc
      | ok st attrs =>
        have hst : st = "completed" := by
          rw [hp] at hc; simpa [isCompletedResp] using hc
        subst hst
        simp [pollGo, hp] at he
        subst he; left; rfl
    · rw [pollGo_continue poll id iv i n (by simpa using hc)] at he
      simp only [List.mem_cons] at he
      rcases he with rfl | rfl | he
      · left; rfl
      · right; exact ⟨iv, rfl⟩
      · exact ih (i + 1) e he

theorem pollGo_no_notify (poll : Nat → PollResp) (id : String) (iv : Nat)
    (n i : Nat) : countEv isNotifyEv (pollGo poll id iv i n).2 = 0 := by
  simp only [countEv, List.length_eq_zero, List.filter_eq_nil_iff]
  intro e he
  rcases pollGo_events poll id iv n i e he with h | ⟨s, rfl⟩
  · cases e <;> simp_all [isPollEv, isNotifyEv]
  · simp [isNotifyEv]


theorem chunksOf_join (n : Nat) : ∀ (m : Nat) (l : List α), l.length ≤ m →
    (chunksOf n l).flatten = l := by
  intro m
  induction m with
  | zero =>
    intro l hl
    have : l = [] := List.eq_nil_of_length_eq_zero (by omega)
    subst this
    simp [chunksOf]
  | succ m ih =>
    intro l hl
    cases l with
    | nil => simp [chunksOf]
    | cons x xs =>
      rw [chunksOf]
      simp only [List.flatten_cons]
      rw [ih (xs.drop (n - 1)) (by simp at hl ⊢; omega)]
      simp [List.take_append_drop]

theorem chunksOf_le (n : Nat) (hn : 1 ≤ n) : ∀ (m : Nat) (l : List α),
    l.length ≤ m → ∀ c ∈ chunksOf n l, c.length ≤ n := by
  intro m
  induction m with
  | zero =>
    intro l hl c hc
    have : l = [] := List.eq_nil_of_length_eq_zero (by omega)
    subst this
    simp [chunksOf] at hc
  | succ m ih =>
    intro l hl c hc
    cases l with
    | nil => simp [chunksOf] at hc
    | cons x xs =>
      rw [chunksOf, List.mem_cons] at hc
      rcases hc with rfl | hc
      · simp [List.length_take]
        omega
      · exact ih (xs.drop (n - 1)) (by simp at hl ⊢; omega) c hc

theorem foldl_append_eq_join (ls : List (List α)) :
    ∀ acc : List α, List.foldl (fun a c => a ++ c) acc ls = acc ++ ls.flatten := by
  induction ls with
  | nil => intro acc; simp
  | cons h t ih => intro acc; simp [ih, List.append_assoc]


theorem hexDigit_mem (n : Nat) : hexDigit n ∈ hexChars := by
  unfold hexDigit
  split <;> decide

theorem hexOfBytes_mem : ∀ (bs : List Nat), ∀ ch ∈ hexOfBytes bs, ch ∈ hexChars := by
  intro bs
  induction bs with
  | nil => simp [hexOfBytes]
  | cons b t ih =>
    intro ch hch
    simp only [hexOfBytes, List.map_cons, List.flatten_cons, List.mem_append,
      List.mem_cons, List.not_mem_nil, or_false] at hch
    rcases hch with (rfl | rfl) | hch
    · exact hexDigit_mem _
    · exact hexDigit_mem _
    · exact ih ch hch

theorem hexOfBytes_length : ∀ (bs : List Nat), (hexOfBytes bs).length = 2 * bs.length := by
  intro bs
  induction bs with
  | nil => simp [hexOfBytes]
  | cons b t ih =>
    simp only [hexOfBytes] at ih ⊢
    simp [ih]
    omega

theorem sha256bytes_length (bs : List Nat) : (sha256bytes bs).length = 32 := by
  simp [sha256bytes, wordBytes]

theorem compute_file_hash_eq (bs : List Nat) : compute_file_hash bs = sha256hex bs := by
  unfold compute_file_hash sha256_hexdigest
  have hupd : sha256_update = (fun a c => a ++ c) := by
    funext a c
    rfl
  rw [hupd, foldl_append_eq_join, List.nil_append,
    chunksOf_join 8192 bs.length bs le_rfl]

-- ── Claim theorems ───────────────────────────────────────────────────────

/-- C10: the report formatter classifies a stats record by strict precedence:
it reports the malicious header exactly when the malicious count is positive,
otherwise the suspicious header exactly when the suspicious count is positive,
otherwise the safe header; a missing count field behaves as zero. -/
theorem report_header_precedence (stats : Stats) :
    (statusHeader stats = malHeader ↔ 0 < stats.malicious.getD 0) ∧
    (statusHeader stats = susHeader ↔
      (stats.malicious.getD 0 ≤ 0 ∧ 0 < stats.suspicious.getD 0)) ∧
    (statusHeader stats = safeHeader ↔
      (stats.malicious.getD 0 ≤ 0 ∧ stats.suspicious.getD 0 ≤ 0)) ∧
    statusHeader { stats with malicious := none } =
      statusHeader { stats with malicious := some 0 } ∧
    statusHeader { stats with suspicious := none } =
      statusHeader { stats with suspicious := some 0 } := by
  rcases lt_or_le 0 (stats.malicious.getD 0) with hm | hm
  · have hhdr : statusHeader stats = malHeader := by
      simp only [statusHeader]
      rw [if_pos hm]
    refine ⟨?_, ?_, ?_, by simp [statusHeader], by simp [statusHeader]⟩
    · rw [hhdr]; exact ⟨fun _ => hm, fun _ => rfl⟩
    · rw [hhdr]
      constructor
      · intro h; exact absurd h (by decide)
      · intro h; exact absurd h.1 (by omega)
    · rw [hhdr]
      constructor
      · intro h; exact absurd h (by decide)
      · intro h; exact absurd h.1 (by omega)
  · rcases lt_or_le 0 (stats.suspicious.getD 0) with hsu | hsu
    · have hhdr : statusHeader stats = susHeader := by
        simp only [statusHeader]
        rw [if_neg (by omega), if_pos hsu]
      refine ⟨?_, ?_, ?_, by simp [statusHeader], by simp [statusHeader]⟩
      · rw [hhdr]
        constructor
        · intro h; exact absurd h (by decide)
        · intro h; exact absurd h (by omega)
      · rw [hhdr]; exact ⟨fun _ => ⟨hm, hsu⟩, fun _ => rfl⟩
      · rw [hhdr]
        constructor
        · intro h; exact absurd h (by decide)
        · intro h; exact absurd h.2 (by omega)
    · have hhdr : statusHeader stats = safeHeader := by
        simp only [statusHeader]
        rw [if_neg (by omega), if_neg (by omega)]
      refine ⟨?_, ?_, ?_, by simp [statusHeader], by simp [statusHeader]⟩
      · rw [hhdr]
        constructor
        · intro h; exact absurd h (by decide)
        · intro h; exact absurd h (by omega)
      · rw [hhdr]
        constructor
        · intro h; exact absurd h (by decide)
        · intro h; exact absurd h.2 (by omega)
      · rw [hhdr]; exact ⟨fun _ => ⟨hm, hsu⟩, fun _ => rfl⟩

/-- C8: calling the cache put twice on the same digest with different verdicts
is total (never raises) and a subsequent get returns the second, fully
populated verdict — in particular one of the two written verdicts, never a
mix. -/
theorem cache_put_put_get (c : String → Option (Stats × String)) (d : String)
    (v1 v2 : Stats) (l1 l2 : String) :
    save_scan_cache (save_scan_cache c d v1 l1 true) d v2 l2 true d
      = some (v2, l2) ∧
    (save_scan_cache (save_scan_cache c d v1 l1 true) d v2 l2 true d
       = some (v1, l1) ∨
     save_scan_cache (save_scan_cache c d v1 l1 true) d v2 l2 true d
       = some (v2, l2)) := by
  refine ⟨by simp [save_scan_cache], Or.inr (by simp [save_scan_cache])⟩

/-- C1: with valid credentials, a file digest present in the local cache is
answered from the cache alone: the cached verdict is returned with its
`cached` tag and the trace holds a single local cache read — no hash lookup,
no upload, no poll. -/
theorem cache_short_circuit (env : FileScanEnv) (digest : String) (st : Stats)
    (link : String) (hk : apiKeyValid env.apiKey = true)
    (hc : env.cache digest = some (st, link)) :
    scan_file_virustotal env digest = (cachedResult st link, [Ev.cacheGet digest]) ∧
    countEv isRemoteEv (scan_file_virustotal env digest).2 = 0 := by
  have h1 : scan_file_virustotal env digest
      = (cachedResult st link, [Ev.cacheGet digest]) := by
    unfold scan_file_virustotal
    rw [hk]
    simp [get_cached_scan, hc]
  refine ⟨h1, ?_⟩
  rw [h1]
  simp [countEv, isRemoteEv]

theorem cache_short_circuit_witness :
    scan_file_virustotal
        { wFileEnvBase with
          cache := fun d => if d = "d1" then some (wStats, "L1") else none } "d1"
      = (cachedResult wStats "L1", [Ev.cacheGet "d1"]) ∧
    countEv isRemoteEv
      (scan_file_virustotal
        { wFileEnvBase with
          cache := fun d => if d = "d1" then some (wStats, "L1") else none } "d1").2 = 0 :=
  cache_short_circuit _ "d1" wStats "L1" (by decide) (by simp)

/-- C4: with valid credentials, a digest absent from the local cache but
known to the remote service completes off the remote hash lookup: the hit is
written through to the local cache once and returned, and no upload request
is ever made. -/
theorem lookup_before_submit (env : FileScanEnv) (digest : String) (st : Stats)
    (hk : apiKeyValid env.apiKey = true) (hc : env.cache digest = none)
    (hh : env.hashLookup = some st) :
    scan_file_virustotal env digest =
      (okResult st (fileLink digest),
       [Ev.cacheGet digest, Ev.vtHashGet digest,
        Ev.cacheSave digest st (fileLink digest)]) ∧
    countEv isUploadEv (scan_file_virustotal env digest).2 = 0 ∧
    countEv isSaveEv (scan_file_virustotal env digest).2 = 1 := by
  have h1 : scan_file_virustotal env digest =
      (okResult st (fileLink digest),
       [Ev.cacheGet digest, Ev.vtHashGet digest,
        Ev.cacheSave digest st (fileLink digest)]) := by
    unfold scan_file_virustotal
    rw [hk]
    simp [get_cached_scan, hc, hh]
  refine ⟨h1, ?_, ?_⟩ <;> rw [h1] <;> simp [countEv, isUploadEv, isSaveEv]

theorem lookup_before_submit_witness :
    scan_file_virustotal { wFileEnvBase with hashLookup := some wStats } "d1" =
      (okResult wStats (fileLink "d1"),
       [Ev.cacheGet "d1", Ev.vtHashGet "d1",
        Ev.cacheSave "d1" wStats (fileLink "d1")]) ∧
    countEv isUploadEv
      (scan_file_virustotal { wFileEnvBase with hashLookup := some wStats } "d1").2 = 0 ∧
    countEv isSaveEv
      (scan_file_virustotal { wFileEnvBase with hashLookup := some wStats } "d1").2 = 1 :=
  lookup_before_submit _ "d1" wStats (by decide) rfl rfl

/-- C5: with valid credentials, when the upload is answered with HTTP 409 and
the follow-up hash lookup succeeds, the conflict is resolved into the looked
up verdict, written to the local cache exactly once, and returned as the scan
result rather than as an error. -/
theorem conflict_resolution (env : FileScanEnv) (digest : String)
    (hk : apiKeyValid env.apiKey = true) (hc : env.cache digest = none)
    (hh : env.hashLookup = none) (h409 : env.uploadStatus = 409)
    (h200 : env.conflictStatus = 200) :
    scan_file_virustotal env digest =
      (okResult env.conflictStats (fileLink digest),
       [Ev.cacheGet digest, Ev.vtHashGet digest, Ev.vtUpload,
        Ev.vtHashGet digest,
        Ev.cacheSave digest env.conflictStats (fileLink digest)]) ∧
    countEv isSaveEv (scan_file_virustotal env digest).2 = 1 := by
  have h1 : scan_file_virustotal env digest =
      (okResult env.conflictStats (fileLink digest),
       [Ev.cacheGet digest, Ev.vtHashGet digest, Ev.vtUpload,
        Ev.vtHashGet digest,
        Ev.cacheSave digest env.conflictStats (fileLink digest)]) := by
    unfold scan_file_virustotal
    rw [hk]
    simp [get_cached_scan, hc, hh, h409, h200]
  refine ⟨h1, ?_⟩
  rw [h1]
  simp [countEv, isSaveEv]

theorem conflict_resolution_witness :
    scan_file_virustotal { wFileEnvBase with uploadStatus := 409 } "d1" =
      (okResult wStats (fileLink "d1"),
       [Ev.cacheGet "d1", Ev.vtHashGet "d1", Ev.vtUpload, Ev.vtHashGet "d1",
        Ev.cacheSave "d1" wStats (fileLink "d1")]) ∧
    countEv isSaveEv
      (scan_file_virustotal { wFileEnvBase with uploadStatus := 409 } "d1").2 = 1 :=
  conflict_resolution _ "d1" (by decide) rfl rfl rfl rfl

/-- C6: every permanent precondition failure short-circuits before any other
work: an oversized file is rejected with no download, no hashing and no
remote call; absent or placeholder credentials fail both scanners with an
empty trace; a URL without the http scheme is rejected with an empty trace. -/
theorem permanent_failure_short_circuit :
    (∀ (env : FileScanEnv) (fileSize : Nat) (digest : String),
      MAX_FILE_SIZE < fileSize →
      process_file_check env fileSize digest =
        (HandlerStep.rejected "⚠️ Fayl juda katta. Maksimum 32MB.", []) ∧
      countEv isHashEv (process_file_check env fileSize digest).2 = 0 ∧
      countEv isRemoteEv (process_file_check env fileSize digest).2 = 0) ∧
    (∀ (env : FileScanEnv) (digest : String), apiKeyValid env.apiKey = false →
      scan_file_virustotal env digest =
        (errResult "VirusTotal API Key o\x27rnatilmagan.", [])) ∧
    (∀ (env : UrlScanEnv) (url : String), apiKeyValid env.apiKey = false →
      scan_url_virustotal env url =
        (errResult "VirusTotal API Key o\x27rnatilmagan.", [])) ∧
    (∀ (env : UrlScanEnv) (url : String), strHasPre "http" url = false →
      process_link_check env url =
        (HandlerStep.rejected "⚠️ Noto\x27g\x27ri URL. http:// yoki https:// bilan boshlang.",
         [])) := by
  refine ⟨?_, ?_, ?_, ?_⟩
  · intro env fileSize digest hbig
    have h1 : process_file_check env fileSize digest =
        (HandlerStep.rejected "⚠️ Fayl juda katta. Maksimum 32MB.", []) := by
      unfold process_file_check
      rw [if_pos hbig]
    refine ⟨h1, ?_, ?_⟩ <;> rw [h1] <;> simp [countEv]
  · intro env digest hkey
    unfold scan_file_virustotal
    rw [hkey, if_pos rfl]
  · intro env url hkey
    unfold scan_url_virustotal
    rw [hkey, if_pos rfl]
  · intro env url hurl
    unfold process_link_check
    rw [hurl, if_pos rfl]

theorem permanent_failure_short_circuit_witness :
    (process_file_check wFileEnvBase (MAX_FILE_SIZE + 1) "d1" =
        (HandlerStep.rejected "⚠️ Fayl juda katta. Maksimum 32MB.", []) ∧
      countEv isHashEv (process_file_check wFileEnvBase (MAX_FILE_SIZE + 1) "d1").2 = 0 ∧
      countEv isRemoteEv (process_file_check wFileEnvBase (MAX_FILE_SIZE + 1) "d1").2 = 0) ∧
    scan_file_virustotal { wFileEnvBase with apiKey := some "YOUR_API_KEY" } "d1" =
      (errResult "VirusTotal API Key o\x27rnatilmagan.", []) ∧
    scan_url_virustotal { wUrlEnv with apiKey := none } "http://a" =
      (errResult "VirusTotal API Key o\x27rnatilmagan.", []) ∧
    process_link_check wUrlEnv "ftp://example.test" =
      (HandlerStep.rejected "⚠️ Noto\x27g\x27ri URL. http:// yoki https:// bilan boshlang.",
       []) :=
  ⟨permanent_failure_short_circuit.1 wFileEnvBase (MAX_FILE_SIZE + 1) "d1" (by omega),
   permanent_failure_short_circuit.2.1 _ "d1" (by decide),
   permanent_failure_short_circuit.2.2.1 _ "http://a" (by decide),
   permanent_failure_short_circuit.2.2.2 wUrlEnv "ftp://example.test" (by decide)⟩

/-- C7: the scan result is entirely independent of whether the local cache
write succeeds; in particular, with a failed write the remote-hash-lookup
verdict is still returned as a success, not converted into an error. -/
theorem cache_write_best_effort (env : FileScanEnv) (digest : String) (st : Stats)
    (hk : apiKeyValid env.apiKey = true) (hw : env.cacheWriteOk = false)
    (hc : env.cache digest = none) (hh : env.hashLookup = some st) :
    (scan_file_virustotal env digest).1 = okResult st (fileLink digest) ∧
    (scan_file_virustotal env digest).1.error = none ∧
    scan_file_virustotal { env with cacheWriteOk := true } digest =
      scan_file_virustotal env digest := by
  have h1 : scan_file_virustotal env digest =
      (okResult st (fileLink digest),
       [Ev.cacheGet digest, Ev.vtHashGet digest,
        Ev.cacheSave digest st (fileLink digest)]) := by
    unfold scan_file_virustotal
    rw [hk]
    simp [get_cached_scan, hc, hh]
  refine ⟨by rw [h1], by rw [h1]; rfl, rfl⟩

theorem cache_write_best_effort_witness :
    (scan_file_virustotal
        { wFileEnvBase with hashLookup := some wStats, cacheWriteOk := false } "d1").1
      = okResult wStats (fileLink "d1") ∧
    (scan_file_virustotal
        { wFileEnvBase with hashLookup := some wStats, cacheWriteOk := false } "d1").1.error
      = none ∧
    scan_file_virustotal
        { { wFileEnvBase with hashLookup := some wStats, cacheWriteOk := false } with
          cacheWriteOk := true } "d1" =
      scan_file_virustotal
        { wFileEnvBase with hashLookup := some wStats, cacheWriteOk := false } "d1" :=
  cache_write_best_effort _ "d1" wStats (by decide) rfl rfl rfl

/-- C3: the poll loop is bounded by its attempt ceiling — 15 attempts at a
3-second interval for file targets, 10 attempts at a 2-second interval for
URL targets, as used at the scan call sites; a transport error or non-200
status merely consumes one attempt and the interval sleep; the attributes
are returned at the first completed poll; once the ceiling is exhausted with
no completed status, no verdict is reported. -/
theorem poll_ceiling (poll : Nat → PollResp) (analysisId : String) :
    countEv isPollEv (get_analysis_result poll analysisId 15 3).2 ≤ 15 ∧
    countEv isPollEv (get_analysis_result poll analysisId 10 2).2 ≤ 10 ∧
    (∀ k attrs, k < 15 → (∀ j, j < k → isCompletedResp (poll j) = false) →
      poll k = PollResp.ok "completed" attrs →
      (get_analysis_result poll analysisId 15 3).1 = some attrs ∧
      countEv isPollEv (get_analysis_result poll analysisId 15 3).2 = k + 1 ∧
      traceTime (get_analysis_result poll analysisId 15 3).2 = k * 3) ∧
    (∀ k attrs, k < 10 → (∀ j, j < k → isCompletedResp (poll j) = false) →
      poll k = PollResp.ok "completed" attrs →
      (get_analysis_result poll analysisId 10 2).1 = some attrs ∧
      countEv isPollEv (get_analysis_result poll analysisId 10 2).2 = k + 1 ∧
      traceTime (get_analysis_result poll analysisId 10 2).2 = k * 2) ∧
    ((∀ j, j < 15 → isCompletedResp (poll j) = false) →
      (get_analysis_result poll analysisId 15 3).1 = none ∧
      countEv isPollEv (get_analysis_result poll analysisId 15 3).2 = 15 ∧
      traceTime (get_analysis_result poll analysisId 15 3).2 = 45) ∧
    ((∀ j, j < 10 → isCompletedResp (poll j) = false) →
      (get_analysis_result poll analysisId 10 2).1 = none ∧
      countEv isPollEv (get_analysis_result poll analysisId 10 2).2 = 10 ∧
      traceTime (get_analysis_result poll analysisId 10 2).2 = 20) := by
  refine ⟨?_, ?_, ?_, ?_, ?_, ?_⟩
  · exact pollGo_poll_le poll analysisId 3 15 0
  · exact pollGo_poll_le poll analysisId 2 10 0
  · intro k attrs hk hnc hcomp
    exact pollGo_complete poll analysisId 3 k 0 15 attrs hk
      (fun j hj => by simpa using hnc j hj) (by simpa using hcomp)
  · intro k attrs hk hnc hcomp
    exact pollGo_complete poll analysisId 2 k 0 10 attrs hk
      (fun j hj => by simpa using hnc j hj) (by simpa using hcomp)
  · intro hnc
    obtain ⟨h1, h2, h3⟩ := pollGo_exhaust poll analysisId 3 15 0
      (fun j hj => by simpa using hnc j hj)
    refine ⟨h1, h2, ?_⟩
    show traceTime (pollGo poll analysisId 3 0 15).2 = 45
    omega
  · intro hnc
    obtain ⟨h1, h2, h3⟩ := pollGo_exhaust poll analysisId 2 10 0
      (fun j hj => by simpa using hnc j hj)
    refine ⟨h1, h2, ?_⟩
    show traceTime (pollGo poll analysisId 2 0 10).2 = 20
    omega

theorem poll_ceiling_witness :
    (get_analysis_result donePoll "an1" 15 3).1 = some wStats ∧
    countEv isPollEv (get_analysis_result donePoll "an1" 15 3).2 = 3 ∧
    traceTime (get_analysis_result donePoll "an1" 15 3).2 = 6 :=
  (poll_ceiling donePoll "an1").2.2.1 2 wStats (by omega)
    (by intro j hj; interval_cases j <;> rfl) rfl

theorem pending_not_completed (r : PollResp) (h : isPendingResp r = true) :
    isCompletedResp r = false := by
  cases r with
  | err => rfl
  | httpStatus s => rfl
  | ok st stats =>
    simp [isPendingResp] at h
    rcases h with rfl | rfl <;> rfl

/-- C2 (amended): for a file target that reaches polling (valid credentials,
cache miss, unknown hash, accepted upload) whose remote poll always reports
pending, the interactive scan defers: `scan_with_timeout` returns no result
within at most the 25-second budget plus one 3-second poll interval, detaches
the background continuation, and that continuation keeps polling through the
full 15-attempt ceiling and ends in exactly one terminal notification — the
timeout message. -/
theorem budget_deferred_file (env : FileScanEnv) (digest : String)
    (hk : apiKeyValid env.apiKey = true) (hc : env.cache digest = none)
    (hh : env.hashLookup = none) (hu : env.uploadStatus = 200)
    (hp : ∀ i, isPendingResp (env.poll i) = true) :
    (scan_with_timeout VT_SCAN_TIMEOUT (scan_file_virustotal env digest)).result = none ∧
    (scan_with_timeout VT_SCAN_TIMEOUT (scan_file_virustotal env digest)).spawned = true ∧
    (scan_with_timeout VT_SCAN_TIMEOUT (scan_file_virustotal env digest)).time
      ≤ VT_SCAN_TIMEOUT + 3 ∧
    background_scan_and_notify (scan_file_virustotal env digest) =
      (scan_file_virustotal env digest).2 ++ [Ev.notify NotifyKind.timeoutMsg] ∧
    countEv isNotifyEv
      (background_scan_and_notify (scan_file_virustotal env digest)) = 1 ∧
    countEv isPollEv
      (background_scan_and_notify (scan_file_virustotal env digest)) = 15 := by
  have hnc : ∀ j, j < 15 → isCompletedResp (env.poll (0 + j)) = false := by
    intro j _
    simpa using pending_not_completed _ (hp j)
  obtain ⟨hpr1, hpr2, hpr3⟩ := pollGo_exhaust env.poll env.uploadId 3 15 0 hnc
  have hrun : scan_file_virustotal env digest =
      (timeoutResult env.uploadId digest,
       [Ev.cacheGet digest, Ev.vtHashGet digest, Ev.vtUpload] ++
         (pollGo env.poll env.uploadId 3 0 15).2) := by
    unfold scan_file_virustotal
    rw [hk]
    simp [get_cached_scan, hc, hh, hu, get_analysis_result, hpr1]
  have ht45 : traceTime (Ev.cacheGet digest :: Ev.vtHashGet digest :: Ev.vtUpload ::
      (pollGo env.poll env.uploadId 3 0 15).2) = 45 := by
    rw [traceTime_cons, traceTime_cons, traceTime_cons]
    have h0 : evTime (Ev.cacheGet digest) = 0 := rfl
    have h1 : evTime (Ev.vtHashGet digest) = 0 := rfl
    have h2 : evTime Ev.vtUpload = 0 := rfl
    omega
  have hfg : scan_with_timeout VT_SCAN_TIMEOUT (scan_file_virustotal env digest) =
      { result := none, time := VT_SCAN_TIMEOUT, spawned := true } := by
    rw [hrun]
    simp [scan_with_timeout, ht45, VT_SCAN_TIMEOUT]
  have hterm : terminalNotify (scan_file_virustotal env digest).1
      = NotifyKind.timeoutMsg := by
    rw [hrun]
    rfl
  have hr2notify : countEv isNotifyEv (scan_file_virustotal env digest).2 = 0 := by
    rw [hrun]
    show countEv isNotifyEv ([Ev.cacheGet digest, Ev.vtHashGet digest, Ev.vtUpload] ++
      (pollGo env.poll env.uploadId 3 0 15).2) = 0
    rw [countEv_append, pollGo_no_notify]
    rfl
  have hr2poll : countEv isPollEv (scan_file_virustotal env digest).2 = 15 := by
    rw [hrun]
    show countEv isPollEv ([Ev.cacheGet digest, Ev.vtHashGet digest, Ev.vtUpload] ++
      (pollGo env.poll env.uploadId 3 0 15).2) = 15
    rw [countEv_append, hpr2]
    rfl
  refine ⟨by rw [hfg], by rw [hfg], by rw [hfg]; decide, ?_, ?_, ?_⟩
  · unfold background_scan_and_notify
    rw [hterm]
  · unfold background_scan_and_notify
    rw [countEv_append, hr2notify, hterm]
    rfl
  · unfold background_scan_and_notify
    rw [countEv_append, hr2poll, hterm]
    rfl

theorem budget_deferred_file_witness :
    (scan_with_timeout VT_SCAN_TIMEOUT
      (scan_file_virustotal { wFileEnvBase with poll := pendPoll } "d1")).result = none ∧
    (scan_with_timeout VT_SCAN_TIMEOUT
      (scan_file_virustotal { wFileEnvBase with poll := pendPoll } "d1")).spawned = true ∧
    (scan_with_timeout VT_SCAN_TIMEOUT
      (scan_file_virustotal { wFileEnvBase with poll := pendPoll } "d1")).time
      ≤ VT_SCAN_TIMEOUT + 3 ∧
    background_scan_and_notify
        (scan_file_virustotal { wFileEnvBase with poll := pendPoll } "d1") =
      (scan_file_virustotal { wFileEnvBase with poll := pendPoll } "d1").2 ++
        [Ev.notify NotifyKind.timeoutMsg] ∧
    countEv isNotifyEv (background_scan_and_notify
      (scan_file_virustotal { wFileEnvBase with poll := pendPoll } "d1")) = 1 ∧
    countEv isPollEv (background_scan_and_notify
      (scan_file_virustotal { wFileEnvBase with poll := pendPoll } "d1")) = 15 :=
  budget_deferred_file _ "d1" (by decide) rfl rfl rfl (fun _ => rfl)

/-- C2 counterexample: for a URL target with valid credentials, an accepted
submission and a poll that always reports pending, the scan does not defer:
the 10-attempt 2-second poll ceiling (20 s) exhausts inside the 25-second
interactive budget, so `scan_with_timeout` returns the timeout error message
synchronously and spawns no background continuation. -/
theorem budget_deferred_url_cex :
    (scan_with_timeout VT_SCAN_TIMEOUT
      (scan_url_virustotal wUrlEnv "http://example.test")).result =
      some (errResult "Tahlil vaqti tugadi. Keyinroq urinib ko\x27ring.") ∧
    (scan_with_timeout VT_SCAN_TIMEOUT
      (scan_url_virustotal wUrlEnv "http://example.test")).spawned = false := by
  decide

/-- C9: the content hasher is a deterministic pure function of the file
bytes: it feeds the file to SHA-256 in chunks of at most 8192 bytes whose
concatenation is exactly the file, the chunked digest equals the digest of
the whole byte sequence, the output is a 64-character string over the
lowercase hexadecimal alphabet, and identical bytes hash identically. -/
theorem hash_streaming (bs bs2 : List Nat) (heq : bs = bs2) :
    compute_file_hash bs = compute_file_hash bs2 ∧
    compute_file_hash bs = sha256hex bs ∧
    (∀ c ∈ chunksOf 8192 bs, c.length ≤ 8192) ∧
    (chunksOf 8192 bs).flatten = bs ∧
    (compute_file_hash bs).data.length = 64 ∧
    (∀ ch ∈ (compute_file_hash bs).data, ch ∈ hexChars) := by
  subst heq
  refine ⟨rfl, compute_file_hash_eq bs, ?_, ?_, ?_, ?_⟩
  · exact chunksOf_le 8192 (by omega) bs.length bs le_rfl
  · exact chunksOf_join 8192 bs.length bs le_rfl
  · rw [compute_file_hash_eq]
    show (hexOfBytes (sha256bytes bs)).length = 64
    rw [hexOfBytes_length, sha256bytes_length]
  · rw [compute_file_hash_eq]
    intro ch hch
    exact hexOfBytes_mem _ ch hch

theorem hash_streaming_witness :
    compute_file_hash [97, 98, 99] = compute_file_hash [97, 98, 99] ∧
    compute_file_hash [97, 98, 99] = sha256hex [97, 98, 99] ∧
    (∀ c ∈ chunksOf 8192 [97, 98, 99], c.length ≤ 8192) ∧
    (chunksOf 8192 [97, 98, 99]).flatten = [97, 98, 99] ∧
    (compute_file_hash [97, 98, 99]).data.length = 64 ∧
    (∀ ch ∈ (compute_file_hash [97, 98, 99]).data, ch ∈ hexChars) :=
  hash_streaming [97, 98, 99] [97, 98, 99] rfl
